import Mathlib

/-!
Verification of the HyperBEAM JavaScript client tutorial code
(docs/tutorial/hyperbeam-client-example.js) as a shallow embedding.

The embedding covers:
- HyperBEAMUtils.createTypedQuery and buildPath (typed-value codec and
  address builder), including the URLSearchParams form-urlencoded
  serialization their output goes through;
- HyperBEAMClient.get and post response handling and the POST body
  computation;
- ProcessClient.waitForStateChange (bounded polling loop);
- ProcessDashboard startPolling, stopPolling, notifySubscribers and
  getDashboardData.
-/

/-- A JavaScript value as used by the tutorial client: numbers, strings,
arrays and plain objects (an object is an ordered list of key/value
entries, matching Object.entries insertion order). -/
inductive JSVal where
  | num (n : Int)
  | str (s : String)
  | arr (xs : List JSVal)
  | obj (kvs : List (String × JSVal))
deriving Repr

mutual

/-- JavaScript ToString coercion for the values above: numbers render in
decimal, strings pass through, arrays render as their elements joined by
a comma (Array.prototype.toString), objects render as [object Object]. -/
def jsToString : JSVal → String
  | .num n => toString n
  | .str s => s
  | .arr xs => jsListToString xs
  | .obj _ => "[object Object]"

/-- Elements of an array joined by a comma, as Array.prototype.join does
with the default separator. -/
def jsListToString : List JSVal → String
  | [] => ""
  | [x] => jsToString x
  | x :: y :: xs => jsToString x ++ "," ++ jsListToString (y :: xs)

end

/-- Uppercase hexadecimal digit for a value below 16. -/
def hexDigit (n : Nat) : Char :=
  if n < 10 then Char.ofNat (48 + n) else Char.ofNat (55 + n)

/-- Percent-encoding of one byte, uppercase hex, as the WHATWG
application/x-www-form-urlencoded serializer emits it. -/
def percentByte (b : UInt8) : String :=
  "%" ++ String.singleton (hexDigit (b.toNat / 16)) ++ String.singleton (hexDigit (b.toNat % 16))

/-- One byte of the form-urlencoded serialization: ASCII alphanumerics
and * - . _ pass through, space becomes a plus sign, every other byte is
percent-encoded. -/
def formEncodeByte (b : UInt8) : String :=
  let n := b.toNat
  if n = 0x2A ∨ n = 0x2D ∨ n = 0x2E ∨ (0x30 ≤ n ∧ n ≤ 0x39) ∨
     (0x41 ≤ n ∧ n ≤ 0x5A) ∨ n = 0x5F ∨ (0x61 ≤ n ∧ n ≤ 0x7A) then
    String.singleton (Char.ofNat n)
  else if n = 0x20 then "+"
  else percentByte b

/-- Form-urlencoded serialization of a string: its UTF-8 bytes, each
encoded by formEncodeByte. This is what URLSearchParams.toString applies
to every name and every value. -/
def formEncode (s : String) : String :=
  String.join (s.data.map (fun c => String.join ((String.utf8EncodeChar c).map formEncodeByte)))

/-- URLSearchParams.toString over an ordered list of name/value pairs:
each pair serialized as name=value with both sides form-urlencoded,
pairs joined by an ampersand, in insertion order. -/
def urlSearchParamsToString (entries : List (String × String)) : String :=
  String.intercalate "&" (entries.map (fun kv => formEncode kv.1 ++ "=" ++ formEncode kv.2))

/-- One entry appended by HyperBEAMUtils.createTypedQuery before
URLSearchParams serialization: numbers go to key+integer with the
decimal rendering, arrays to key+list with elements joined by a comma,
objects to key+map with k=v entries joined by a semicolon, everything
else to the bare key with the ToString rendering. -/
def typedEntry (key : String) : JSVal → String × String
  | .num n => (key ++ "+integer", toString n)
  | .arr xs => (key ++ "+list", jsListToString xs)
  | .obj kvs =>
      (key ++ "+map",
       String.intercalate ";" (kvs.map (fun kv => kv.1 ++ "=" ++ jsToString kv.2)))
  | .str s => (key, s)

/-- HyperBEAMUtils.createTypedQuery: builds the typed entries in
insertion order and serializes them through URLSearchParams.toString. -/
def createTypedQuery (params : List (String × JSVal)) : String :=
  urlSearchParamsToString (params.map (fun kv => typedEntry kv.1 kv.2))

/-- HyperBEAMUtils.buildPath: a slash, the device string, then the
question-mark-prefixed typed query when the parameter mapping is
non-empty, then a slash and the path string when the path is non-empty.
Note the query precedes the path in the source. -/
def buildPath (device path : String) (params : List (String × JSVal)) : String :=
  let query := if params.length > 0 then "?" ++ createTypedQuery params else ""
  "/" ++ device ++ query ++ (if path = "" then "" else "/" ++ path)

/-- Follows the words of the spec, for comparison with buildPath: the
segment validity check the Address Builder section prescribes, true
when some segment is empty or contains a slash and the builder is thus
required to fail with InvalidSegment. No such check exists in the
source. -/
def specInvalidSegment (segments : List String) : Bool :=
  segments.any (fun seg => seg = "" || seg.data.contains '/')

/-! ## JSON serialization and the POST body (HyperBEAMClient.post) -/

/-- JSON string escaping for one character, as JSON.stringify performs
it on the characters that occur in this development: quote and
backslash gain a backslash, newline, carriage return and tab become
their two-character escapes, everything else passes through. -/
def jsonEscapeChar (c : Char) : String :=
  if c = '"' then "\\\""
  else if c = '\\' then "\\\\"
  else if c = '\n' then "\\n"
  else if c = '\r' then "\\r"
  else if c = '\t' then "\\t"
  else String.singleton c

/-- JSON string escaping over a list of characters. -/
def jsonEscapeList : List Char → String
  | [] => ""
  | c :: cs => jsonEscapeChar c ++ jsonEscapeList cs

/-- JSON string escaping of a whole string. -/
def jsonEscape (s : String) : String := jsonEscapeList s.data

mutual

/-- JSON.stringify on the embedded JavaScript values: numbers in
decimal, strings quoted and escaped, arrays bracketed with elements
joined by a comma, objects braced with quoted keys. -/
def jsonStringify : JSVal → String
  | .num n => toString n
  | .str s => "\"" ++ jsonEscape s ++ "\""
  | .arr xs => "[" ++ jsonStringifyList xs ++ "]"
  | .obj kvs => "\x7b" ++ jsonStringifyPairs kvs ++ "\x7d"

/-- Elements of a JSON array, comma separated. -/
def jsonStringifyList : List JSVal → String
  | [] => ""
  | [x] => jsonStringify x
  | x :: y :: xs => jsonStringify x ++ "," ++ jsonStringifyList (y :: xs)

/-- Entries of a JSON object, comma separated, keys quoted. -/
def jsonStringifyPairs : List (String × JSVal) → String
  | [] => ""
  | [kv] => "\"" ++ jsonEscape kv.1 ++ "\":" ++ jsonStringify kv.2
  | kv :: kw :: kvs =>
      "\"" ++ jsonEscape kv.1 ++ "\":" ++ jsonStringify kv.2 ++ "," ++
      jsonStringifyPairs (kw :: kvs)

end

/-- The request body computed by HyperBEAMClient.post: a string payload
is transmitted as is, every other payload is passed through
JSON.stringify. -/
def postBody : JSVal → String
  | .str s => s
  | .num n => jsonStringify (JSVal.num n)
  | .arr xs => jsonStringify (JSVal.arr xs)
  | .obj kvs => jsonStringify (JSVal.obj kvs)

/-- The request body used by ProcessClient.sendMessage, which forwards
its data argument unchanged to HyperBEAMClient.post. -/
def sendMessageBody (data : JSVal) : String := postBody data

/-! ## Response handling (HyperBEAMClient.get and post) -/

/-- The parts of a fetch Response the client inspects: the numeric
status, its status text, the content-type header when present, and the
body text. -/
structure HttpResponse where
  status : Nat
  statusText : String
  contentType : Option String
  body : String
deriving Repr, DecidableEq

/-- The error shapes surfaced by the client: the HTTP status error
thrown on a non-ok response, carrying the status and status text, and a
body that fails to parse on a response that declared structured
content. -/
inductive ClientError where
  | requestFailed (status : Nat) (statusText : String)
  | malformedResponse
deriving Repr, DecidableEq

/-- A successful result of get or post: parsed structured data when the
content type declared application/json, otherwise the raw body text. -/
inductive ClientRepresentation (J : Type) where
  | json (j : J)
  | text (s : String)
deriving Repr, DecidableEq

/-- Whether a content-type string contains the substring
application/json, as the includes test in the source does. -/
def declaresJson (ct : String) : Bool :=
  decide ((ct.splitOn "application/json").length > 1)

/-- The shared response handling of HyperBEAMClient.get and post: a
non-ok status (outside 200 to 299) throws the HTTP status error without
touching the body; an ok response is parsed as JSON when the
content-type declares it (a parse failure propagates), and returned as
raw text otherwise. The parse argument stands for response.json(). -/
def handleResponse {J : Type} (parse : String → Option J) (r : HttpResponse) :
    Except ClientError (ClientRepresentation J) :=
  if 200 ≤ r.status ∧ r.status < 300 then
    match r.contentType with
    | some ct =>
        if declaresJson ct then
          match parse r.body with
          | some j => Except.ok (ClientRepresentation.json j)
          | none => Except.error ClientError.malformedResponse
        else Except.ok (ClientRepresentation.text r.body)
    | none => Except.ok (ClientRepresentation.text r.body)
  else Except.error (ClientError.requestFailed r.status r.statusText)

/-- The outcome HyperBEAMClient.get produces from a response. -/
def getOutcome {J : Type} (parse : String → Option J) (r : HttpResponse) :
    Except ClientError (ClientRepresentation J) :=
  handleResponse parse r

/-- The outcome HyperBEAMClient.post produces from a response; the
response handling code is identical to that of get. -/
def postOutcome {J : Type} (parse : String → Option J) (r : HttpResponse) :
    Except ClientError (ClientRepresentation J) :=
  handleResponse parse r

/-! ## ProcessClient.waitForStateChange -/

/-- How one run of waitForStateChange ends: the first state satisfying
the check is returned; a fetch error on the last attempt is rethrown;
exhausting all attempts throws the state-change-not-detected error. -/
inductive WaitOutcome (St Err : Type) where
  | found (s : St)
  | fetchError (e : Err)
  | predicateNotMet
deriving Repr, DecidableEq

/-- The loop body of waitForStateChange. The first argument of the pair
below is the outcome, the second the number of fetch attempts performed.
The argument rem counts the remaining iterations of the source loop
(for i from 0 while i less than maxAttempts), i is the current index;
fetch i is the result of the i-th getCurrentState call. A successful
fetch whose state fails the check continues the loop; a fetch error is
caught and continues the loop unless i equals maxAttempts - 1, where it
is rethrown. -/
def waitLoop {St Err : Type} (fetch : Nat → Except Err St) (check : St → Bool)
    (maxAttempts : Nat) : Nat → Nat → WaitOutcome St Err × Nat
  | 0, i => (WaitOutcome.predicateNotMet, i)
  | rem + 1, i =>
      match fetch i with
      | Except.ok s =>
          if check s then (WaitOutcome.found s, i + 1)
          else waitLoop fetch check maxAttempts rem (i + 1)
      | Except.error e =>
          if i = maxAttempts - 1 then (WaitOutcome.fetchError e, i + 1)
          else waitLoop fetch check maxAttempts rem (i + 1)

/-- ProcessClient.waitForStateChange, abstracted over the sequence of
getCurrentState results: runs the loop from index 0 with maxAttempts
iterations remaining. The interval sleep has no effect on the outcome
and is not modelled. -/
def waitForStateChange {St Err : Type} (fetch : Nat → Except Err St)
    (check : St → Bool) (maxAttempts : Nat) : WaitOutcome St Err × Nat :=
  waitLoop fetch check maxAttempts maxAttempts 0

/-! ## ProcessDashboard -/

/-- The ambient timer registry: the identifiers of the currently active
timers and the identifier the next setInterval call will allocate. -/
structure TimerSys where
  activeTimers : List Nat
  nextId : Nat
deriving Repr, DecidableEq

/-- setInterval: allocates a fresh timer identifier, activates it and
returns it. -/
def setIntervalSys (sys : TimerSys) : TimerSys × Nat :=
  (⟨sys.activeTimers ++ [sys.nextId], sys.nextId + 1⟩, sys.nextId)

/-- clearInterval: deactivates the given timer identifier. -/
def clearIntervalSys (sys : TimerSys) (id : Nat) : TimerSys :=
  ⟨sys.activeTimers.filter (fun t => t ≠ id), sys.nextId⟩

/-- The mutable state of a ProcessDashboard: the registered subscriber
callbacks (each may throw when invoked) and the pollingInterval field
holding the current timer handle, or none. -/
structure Dashboard (St Err : Type) where
  subscribers : List (St → Except Err Unit)
  pollingInterval : Option Nat

/-- ProcessDashboard.startPolling: if a timer handle is present it is
cleared first, then a fresh interval timer is created and stored in
pollingInterval. -/
def startPolling {St Err : Type} (d : Dashboard St Err) (sys : TimerSys) :
    Dashboard St Err × TimerSys :=
  let sys1 :=
    match d.pollingInterval with
    | some id => clearIntervalSys sys id
    | none => sys
  let r := setIntervalSys sys1
  (⟨d.subscribers, some r.2⟩, r.1)

/-- ProcessDashboard.stopPolling: if a timer handle is present it is
cleared and the field reset to none; otherwise nothing happens. -/
def stopPolling {St Err : Type} (d : Dashboard St Err) (sys : TimerSys) :
    Dashboard St Err × TimerSys :=
  match d.pollingInterval with
  | some id => (⟨d.subscribers, none⟩, clearIntervalSys sys id)
  | none => (d, sys)

/-- The intended relation between a dashboard and the ambient timer
registry: the active timers are exactly the ones recorded in the
pollingInterval field, and every active identifier was allocated by an
earlier setInterval call. -/
def pollInvariant {St Err : Type} (d : Dashboard St Err) (sys : TimerSys) : Prop :=
  sys.activeTimers = d.pollingInterval.toList ∧
  ∀ t ∈ sys.activeTimers, t < sys.nextId

/-- ProcessDashboard.notifySubscribers: every registered callback is
invoked with the state, each inside its own try/catch, so the returned
list records one outcome per subscriber. -/
def notifySubscribers {St Err : Type} (subs : List (St → Except Err Unit))
    (state : St) : List (Except Err Unit) :=
  subs.map (fun cb => cb state)

/-- One tick of the interval callback installed by startPolling: on a
successful getCurrentState the subscribers are notified; on a fetch
error the error is only logged, the dashboard state is untouched and no
subscriber is invoked. The returned list holds the outcome of each
subscriber invocation performed. -/
def pollTick {St Err : Type} (d : Dashboard St Err) (fetch : Except Err St) :
    Dashboard St Err × List (Except Err Unit) :=
  match fetch with
  | Except.ok s => (d, notifySubscribers d.subscribers s)
  | Except.error _ => (d, [])

/-- The result assembled by ProcessDashboard.getDashboardData. -/
structure DashboardData (St Sch C : Type) where
  state : St
  schedule : Sch
  cache : Option C
  timestamp : String
deriving Repr, DecidableEq

/-- ProcessDashboard.getDashboardData, abstracted over the results of
the three concurrent fetches: getCurrentState and getSchedule failures
reject the whole aggregation, while the getCacheData promise carries a
catch handler turning its failure into null, so only its success value
(if any) lands in the cache field. -/
def getDashboardData {St Sch C Err : Type} (currentState : Except Err St)
    (schedule : Except Err Sch) (cacheData : Except Err C) (ts : String) :
    Except Err (DashboardData St Sch C) :=
  match currentState, schedule with
  | Except.ok s, Except.ok sch => Except.ok ⟨s, sch, cacheData.toOption, ts⟩
  | Except.error e, _ => Except.error e
  | _, Except.error e => Except.error e

/-! ## Helper lemmas -/

lemma waitLoop_ok_cont {St Err : Type} (fetch : Nat → Except Err St) (check : St → Bool)
    (m rem i : Nat) {s : St} (h : fetch i = Except.ok s) (hc : check s = false) :
    waitLoop fetch check m (rem + 1) i = waitLoop fetch check m rem (i + 1) := by
  simp [waitLoop, h, hc]

lemma waitLoop_err_cont {St Err : Type} (fetch : Nat → Except Err St) (check : St → Bool)
    (m rem i : Nat) {e : Err} (h : fetch i = Except.error e) (hne : i ≠ m - 1) :
    waitLoop fetch check m (rem + 1) i = waitLoop fetch check m rem (i + 1) := by
  simp [waitLoop, h, hne]

lemma waitLoop_err_last {St Err : Type} (fetch : Nat → Except Err St) (check : St → Bool)
    (m rem i : Nat) {e : Err} (h : fetch i = Except.error e) (heq : i = m - 1) :
    waitLoop fetch check m (rem + 1) i = (WaitOutcome.fetchError e, i + 1) := by
  subst heq
  simp [waitLoop, h]

lemma jsonEscapeChar_length (c : Char) : 1 ≤ (jsonEscapeChar c).length := by
  unfold jsonEscapeChar
  repeat' split
  all_goals first | decide | rfl

lemma jsonEscapeList_length (cs : List Char) : cs.length ≤ (jsonEscapeList cs).length := by
  induction cs with
  | nil => simp [jsonEscapeList]
  | cons c cs ih =>
      have hc := jsonEscapeChar_length c
      simp only [jsonEscapeList, String.length_append, List.length_cons]
      omega

/-! ## Claims -/

/-- C1 counterexample: encoding the mapping with count mapped to the
integer 42 and items mapped to the list of apple and banana does not
produce the parameter string count+integer=42&items+list=apple,banana
claimed by the spec, because URLSearchParams.toString percent-encodes
the plus and comma characters. -/
theorem createTypedQuery_literal_counterexample :
    createTypedQuery [("count", JSVal.num 42),
      ("items", JSVal.arr [JSVal.str "apple", JSVal.str "banana"])] ≠
    "count+integer=42&items+list=apple,banana" := by decide

/-- C1 amended: encoding the same mapping yields
count%2Binteger=42&items%2Blist=apple%2Cbanana, with parameters in
insertion order (swapping the insertion order swaps the output order)
and with the plus and comma characters percent-encoded as %2B and %2C;
the = and & separators appear literally. -/
theorem createTypedQuery_actual_encoding :
    createTypedQuery [("count", JSVal.num 42),
      ("items", JSVal.arr [JSVal.str "apple", JSVal.str "banana"])] =
      "count%2Binteger=42&items%2Blist=apple%2Cbanana" ∧
    createTypedQuery [("items", JSVal.arr [JSVal.str "apple", JSVal.str "banana"]),
      ("count", JSVal.num 42)] =
      "items%2Blist=apple%2Cbanana&count%2Binteger=42" := by
  constructor <;> decide

/-- C2 counterexample: for the device root with one parameter and one
subpath, buildPath emits the query directly after the device and the
path after the query, not the spec-claimed segments-then-query shape,
so the path segment appears after the question mark. -/
theorem buildPath_order_counterexample :
    buildPath "~message@1.0" "greeting" [("greeting", JSVal.str "Hello")] =
      "/~message@1.0?greeting=Hello/greeting" ∧
    buildPath "~message@1.0" "greeting" [("greeting", JSVal.str "Hello")] ≠
      "/~message@1.0/greeting?greeting=Hello" := by
  constructor <;> decide

/-- C2 amended: for every device, non-empty path and non-empty
parameter mapping, buildPath produces a slash, the device root, then
the question-mark-prefixed typed query, and only after the query a
slash and the path segments; parameters keep insertion order through
createTypedQuery. -/
theorem buildPath_query_precedes_path (device path : String)
    (params : List (String × JSVal)) (hpath : path ≠ "") (hparams : params ≠ []) :
    buildPath device path params =
      "/" ++ device ++ "?" ++ createTypedQuery params ++ "/" ++ path := by
  have h1 : params.length > 0 := List.length_pos.mpr hparams
  unfold buildPath
  rw [if_pos h1, if_neg hpath]
  simp [String.append_assoc]

/-- Witness for the C2 amended theorem at a concrete device, path and
parameter mapping. -/
theorem buildPath_query_precedes_path_witness :
    ("p" ≠ "" ∧ ([("a", JSVal.str "b")] : List (String × JSVal)) ≠ []) ∧
    buildPath "d" "p" [("a", JSVal.str "b")] =
      "/" ++ "d" ++ "?" ++ createTypedQuery [("a", JSVal.str "b")] ++ "/" ++ "p" :=
  ⟨⟨by decide, List.cons_ne_nil _ _⟩,
   buildPath_query_precedes_path "d" "p" [("a", JSVal.str "b")]
     (by decide) (List.cons_ne_nil _ _)⟩

/-- C3 counterexample: a list whose single element contains the comma
separator encodes, without any error, to the very same wire string as
the two-element list obtained by splitting at the comma: the encoding
is silently ambiguous instead of failing with UnencodableValue. -/
theorem createTypedQuery_list_separator_collision :
    createTypedQuery [("xs", JSVal.arr [JSVal.str "a,b"])] =
    createTypedQuery [("xs", JSVal.arr [JSVal.str "a", JSVal.str "b"])] := by decide

/-- C3 amended: encoding is total and never raises UnencodableValue; a
list element containing the comma separator, and a map value containing
the = or ; separators, silently produce a wire string identical to that
of a structurally different value. The two conjuncts exhibit the map
collisions for = and for ;. -/
theorem createTypedQuery_map_separator_collision :
    createTypedQuery [("m", JSVal.obj [("k", JSVal.str "a=b")])] =
      createTypedQuery [("m", JSVal.obj [("k=a", JSVal.str "b")])] ∧
    createTypedQuery [("m", JSVal.obj [("k", JSVal.str "a;x=y")])] =
      createTypedQuery [("m", JSVal.obj [("k", JSVal.str "a"), ("x", JSVal.str "y")])] := by
  constructor <;> decide

/-- C4 counterexample: the path a//b denotes the segment list with an
empty segment, which the spec requires buildPath to reject with
InvalidSegment; buildPath performs no such check and returns the
address with the offending segments verbatim. -/
theorem buildPath_no_segment_check_counterexample :
    "a//b" = String.intercalate "/" ["a", "", "b"] ∧
    specInvalidSegment ["a", "", "b"] = true ∧
    buildPath "d" "a//b" [] = "/d/a//b" := by
  refine ⟨by decide, by decide, by decide⟩

/-- C4 amended: buildPath never fails: it is a total function that
accepts every path string, and every non-empty path (separator-free or
not) appears verbatim as the final slash-separated suffix of the output
address. -/
theorem buildPath_total_path_verbatim (device path : String)
    (params : List (String × JSVal)) (h : path ≠ "") :
    ∃ p, buildPath device path params = p ++ "/" ++ path := by
  refine ⟨"/" ++ device ++
    (if params.length > 0 then "?" ++ createTypedQuery params else ""), ?_⟩
  unfold buildPath
  rw [if_neg h]
  simp [String.append_assoc]

/-- Witness for the C4 amended theorem at a concrete device and path. -/
theorem buildPath_total_path_verbatim_witness :
    ("balances" ≠ "") ∧
    ∃ p, buildPath "abc~process@1.0" "balances" [] = p ++ "/" ++ "balances" :=
  ⟨by decide, buildPath_total_path_verbatim "abc~process@1.0" "balances" [] (by decide)⟩

/-- C5: under a predicate that no fetched state ever satisfies,
waitForStateChange with maxAttempts 3 performs exactly 3 fetch attempts;
a fetch error on attempt 0 or 1 only continues the loop, while the
outcome is the rethrown fetch error exactly when the final attempt
fetches an error, and the state-change-not-detected failure exactly
when the final attempt fetches successfully. -/
theorem waitForStateChange_spec {St Err : Type} (fetch : Nat → Except Err St)
    (check : St → Bool)
    (hnever : ∀ i s, fetch i = Except.ok s → check s = false) :
    (waitForStateChange fetch check 3).2 = 3 ∧
    (∀ e, fetch 2 = Except.error e →
      (waitForStateChange fetch check 3).1 = WaitOutcome.fetchError e) ∧
    (∀ s, fetch 2 = Except.ok s →
      (waitForStateChange fetch check 3).1 = WaitOutcome.predicateNotMet) := by
  have h01 : waitLoop fetch check 3 3 0 = waitLoop fetch check 3 2 1 := by
    rcases h0 : fetch 0 with e0 | s0
    · exact waitLoop_err_cont fetch check 3 2 0 h0 (by decide)
    · exact waitLoop_ok_cont fetch check 3 2 0 h0 (hnever 0 s0 h0)
  have h12 : waitLoop fetch check 3 2 1 = waitLoop fetch check 3 1 2 := by
    rcases h1 : fetch 1 with e1 | s1
    · exact waitLoop_err_cont fetch check 3 1 1 h1 (by decide)
    · exact waitLoop_ok_cont fetch check 3 1 1 h1 (hnever 1 s1 h1)
  have hrun : waitForStateChange fetch check 3 = waitLoop fetch check 3 1 2 := by
    unfold waitForStateChange
    rw [show waitLoop fetch check 3 3 0 = waitLoop fetch check 3 2 1 from h01, h12]
  refine ⟨?_, ?_, ?_⟩
  · rw [hrun]
    rcases h2 : fetch 2 with e2 | s2
    · rw [waitLoop_err_last fetch check 3 0 2 h2 (by decide)]
    · rw [waitLoop_ok_cont fetch check 3 0 2 h2 (hnever 2 s2 h2)]
      rfl
  · intro e2 h2
    rw [hrun, waitLoop_err_last fetch check 3 0 2 h2 (by decide)]
  · intro s2 h2
    rw [hrun, waitLoop_ok_cont fetch check 3 0 2 h2 (hnever 2 s2 h2)]
    rfl

/-- Witness for C5: a fetch sequence that errors on attempt 0 and
succeeds afterwards, with a never-satisfied predicate, makes exactly 3
attempts and ends in the predicate-not-met failure. -/
theorem waitForStateChange_spec_witness :
    (∀ i s, (fun k => if k == 0 then (Except.error 0 : Except Nat Nat)
        else Except.ok 0) i = Except.ok s → (fun _ : Nat => false) s = false) ∧
    (waitForStateChange (fun k => if k == 0 then (Except.error 0 : Except Nat Nat)
        else Except.ok 0) (fun _ => false) 3).2 = 3 ∧
    (waitForStateChange (fun k => if k == 0 then (Except.error 0 : Except Nat Nat)
        else Except.ok 0) (fun _ => false) 3).1 = WaitOutcome.predicateNotMet := by
  refine ⟨fun i s _ => rfl, ?_, ?_⟩
  · exact (waitForStateChange_spec _ _ (fun i s _ => rfl)).1
  · exact (waitForStateChange_spec _ _ (fun i s _ => rfl)).2.2 0 rfl

/-- C6: getDashboardData succeeds with the cache field explicitly
absent when only the cached-subtree fetch fails, keeps a successful
cache value otherwise, and fails with the offending error whenever the
live-state fetch or the schedule fetch fails. -/
theorem getDashboardData_spec {St Sch C Err : Type} (s : St) (sch : Sch) (e : Err)
    (sch2 : Except Err Sch) (cacheData : Except Err C) (ts : String) :
    getDashboardData (Except.ok s) (Except.ok sch) (Except.error e : Except Err C) ts =
      Except.ok ⟨s, sch, none, ts⟩ ∧
    getDashboardData (Except.ok s) (Except.ok sch) cacheData ts =
      Except.ok ⟨s, sch, cacheData.toOption, ts⟩ ∧
    getDashboardData (Except.error e : Except Err St) sch2 cacheData ts = Except.error e ∧
    getDashboardData (Except.ok s) (Except.error e : Except Err Sch) cacheData ts =
      Except.error e := by
  refine ⟨rfl, rfl, ?_, rfl⟩
  cases sch2 <;> rfl

/-- C7: assuming the timer registry holds exactly the timers recorded
in the pollingInterval field, startPolling preserves that invariant and
leaves at most one active timer (replacing, not accumulating),
stopPolling preserves it and leaves no active timer, and stopPolling on
an idle dashboard is a no-op rather than an error. -/
theorem polling_single_timer {St Err : Type} (d : Dashboard St Err) (sys : TimerSys)
    (h : pollInvariant d sys) :
    (pollInvariant (startPolling d sys).1 (startPolling d sys).2 ∧
     (startPolling d sys).2.activeTimers.length ≤ 1) ∧
    (pollInvariant (stopPolling d sys).1 (stopPolling d sys).2 ∧
     (stopPolling d sys).2.activeTimers = []) ∧
    (d.pollingInterval = none → stopPolling d sys = (d, sys)) := by
  obtain ⟨h1, h2⟩ := h
  cases hp : d.pollingInterval with
  | none =>
      rw [hp] at h1
      simp only [Option.toList] at h1
      refine ⟨⟨⟨?_, ?_⟩, ?_⟩, ⟨⟨?_, ?_⟩, ?_⟩, ?_⟩ <;>
        simp [startPolling, stopPolling, setIntervalSys, clearIntervalSys,
          pollInvariant, hp, h1]
  | some id =>
      rw [hp] at h1
      simp only [Option.toList] at h1
      have hid : id < sys.nextId := h2 id (by rw [h1]; exact List.mem_singleton.mpr rfl)
      refine ⟨⟨⟨?_, ?_⟩, ?_⟩, ⟨⟨?_, ?_⟩, ?_⟩, ?_⟩ <;>
        simp [startPolling, stopPolling, setIntervalSys, clearIntervalSys,
          pollInvariant, hp, h1]

/-- Witness for C7: on an idle dashboard with an empty timer registry,
the invariant holds, one start leaves at most one active timer, and
stopping while idle changes nothing. -/
theorem polling_single_timer_witness :
    pollInvariant (⟨[], none⟩ : Dashboard Unit Unit) ⟨[], 0⟩ ∧
    ((startPolling (⟨[], none⟩ : Dashboard Unit Unit) ⟨[], 0⟩).2.activeTimers.length ≤ 1 ∧
      stopPolling (⟨[], none⟩ : Dashboard Unit Unit) ⟨[], 0⟩ = (⟨[], none⟩, ⟨[], 0⟩)) := by
  have hinv : pollInvariant (⟨[], none⟩ : Dashboard Unit Unit) ⟨[], 0⟩ := by
    constructor
    · rfl
    · intro t ht
      cases ht
  have h := polling_single_timer (⟨[], none⟩ : Dashboard Unit Unit) ⟨[], 0⟩ hinv
  exact ⟨hinv, h.1.2, h.2.2 rfl⟩

/-- C8: a tick whose live-state fetch succeeds leaves the dashboard
(and hence its timer handle) untouched and invokes every registered
subscriber with the new state: the list of outcomes has one entry per
subscriber and its j-th entry is exactly the j-th callback applied to
the state, independent of the other callbacks having thrown; a tick
whose fetch fails leaves the dashboard untouched, stops no timer and
invokes no subscriber. -/
theorem pollTick_spec {St Err : Type} (d : Dashboard St Err) (s : St) (e : Err) :
    (pollTick d (Except.ok s)).1 = d ∧
    (pollTick d (Except.ok s)).2.length = d.subscribers.length ∧
    (∀ j, (pollTick d (Except.ok s)).2.get? j =
      (d.subscribers.get? j).map (fun cb => cb s)) ∧
    pollTick d (Except.error e) = (d, []) := by
  refine ⟨rfl, ?_, ?_, rfl⟩
  · simp [pollTick, notifySubscribers]
  · intro j
    simp [pollTick, notifySubscribers, List.getElem?_map]

/-- C9: every response whose status is not in the 2xx range makes both
get and post fail with the HTTP status error carrying that status and
status text, uniformly and independently of the response body and of
the JSON parser (so the body is never parsed). -/
theorem requestFailed_on_non_ok {J : Type} (parse : String → Option J)
    (r : HttpResponse) (h : ¬ (200 ≤ r.status ∧ r.status < 300)) :
    getOutcome parse r = Except.error (ClientError.requestFailed r.status r.statusText) ∧
    postOutcome parse r = Except.error (ClientError.requestFailed r.status r.statusText) := by
  constructor <;> simp [getOutcome, postOutcome, handleResponse, h]

/-- Witness for C9: a 404 response with a JSON content type and a body
fails with the HTTP status error, the body never reaching the parser. -/
theorem requestFailed_on_non_ok_witness :
    (¬ (200 ≤ 404 ∧ 404 < 300)) ∧
    getOutcome (fun _ => (none : Option Unit))
        ⟨404, "Not Found", some "application/json", "ignored body"⟩ =
      Except.error (ClientError.requestFailed 404 "Not Found") := by
  have h : ¬ (200 ≤ (404 : Nat) ∧ (404 : Nat) < 300) := by decide
  exact ⟨h, (requestFailed_on_non_ok (fun _ => (none : Option Unit))
    ⟨404, "Not Found", some "application/json", "ignored body"⟩ h).1⟩

/-- C10: a string payload is transmitted verbatim as the POST body and
is strictly shorter than its JSON serialization, hence never
double-encoded; every non-string payload (number, array, object) is
passed through JSON.stringify; and sendMessage forwards its payload to
post unchanged. -/
theorem postBody_spec :
    (∀ s, postBody (JSVal.str s) = s) ∧
    (∀ s, (postBody (JSVal.str s)).length < (jsonStringify (JSVal.str s)).length) ∧
    (∀ n, postBody (JSVal.num n) = jsonStringify (JSVal.num n)) ∧
    (∀ xs, postBody (JSVal.arr xs) = jsonStringify (JSVal.arr xs)) ∧
    (∀ kvs, postBody (JSVal.obj kvs) = jsonStringify (JSVal.obj kvs)) ∧
    (∀ data, sendMessageBody data = postBody data) := by
  refine ⟨fun s => rfl, ?_, fun n => rfl, fun xs => rfl, fun kvs => rfl, fun data => rfl⟩
  intro s
  show s.length < ("\"" ++ jsonEscape s ++ "\"").length
  have h1 := jsonEscapeList_length s.data
  have h2 : s.length = s.data.length := rfl
  have h3 : ("\"").length = 1 := rfl
  rw [String.length_append, String.length_append]
  simp only [jsonEscape] at *
  omega
